import Mathlib

/-!
Verification development for the PriMock-57 SOAP ETL pipeline.

The definitions below are a shallow embedding of the three core components:
the utterance extractor (`parse_grid` / transcript merge in `etl/build.py`),
the SOAP classifier (`split_soap` in `etl/build.py`), and the dataset filter
(`etl/filter_complete.py`).  Text is modelled as `List Char`; Python regular
expressions are embedded as explicit scanning functions restricted to the
ASCII reading of the character classes `\s`, `\w` and `\d` (all inputs in
the repository's data path and in the claims are ASCII).  Timestamps
(Python floats holding exactly representable values) are modelled as `Rat`.
-/

namespace SoapETL

/-- Whitespace recognised by the embedding of Python's `str.strip` and the
regex class `\s` (ASCII subset: space, tab, newline, carriage return,
vertical tab, form feed). -/
def pyIsSpace (c : Char) : Bool :=
  c == (' ') || c == ('\t') || c == ('\n') || c == ('\r') ||
    c == ('\x0b') || c == ('\x0c')

/-- ASCII lower-casing, the effect of Python's `str.lower` on ASCII text. -/
def lowerC (c : Char) : Char := c.toLower

/-- Lower-case every character, embedding `str.lower` on ASCII text. -/
def lowerL (s : List Char) : List Char := s.map lowerC

/-- Word characters of the regex class `\w` (ASCII subset), used for the
word-boundary `\b` in the SOAP header patterns. -/
def isWordChar (c : Char) : Bool := c.isAlphanum || c == ('_')

/-- The delimiters accepted after a SOAP header token, from
`D = r"[:\-–]"` in `etl/build.py`: colon, hyphen, or EN dash. -/
def isDelim (c : Char) : Bool := c == (':') || c == ('-') || c == ('–')

/-- Decide whether the first list is a prefix of the second (exact chars). -/
def startsWithL : List Char → List Char → Bool
  | [], _ => true
  | _ :: _, [] => false
  | a :: as, b :: bs => a == b && startsWithL as bs

/-- Substring containment, the embedding of Python's `needle in haystack`. -/
def containsSub : List Char → List Char → Bool
  | n, [] => startsWithL n []
  | n, c :: t => startsWithL n (c :: t) || containsSub n t

/-- Strip leading and trailing whitespace, embedding `str.strip()`. -/
def pyStripL (s : List Char) : List Char :=
  ((s.dropWhile pyIsSpace).reverse.dropWhile pyIsSpace).reverse

/-- Return the text after the first `>` in the list, if any. -/
def afterGt : List Char → Option (List Char)
  | [] => none
  | c :: r => if c == ('>') then some r else afterGt r

/-- For text following a `<`: the remainder after the matching `>` of
`TAG_RE = <[^>]+>`, requiring at least one non-`>` character in between. -/
def findTagEnd : List Char → Option (List Char)
  | [] => none
  | c :: r => if c == ('>') then none else afterGt r

/-- Fueled scanner removing every match of `TAG_RE = <[^>]+>`
(non-overlapping, leftmost first), as `TAG_RE.sub("", txt)` does. -/
def stripTagsAux : Nat → List Char → List Char
  | 0, s => s
  | _ + 1, [] => []
  | fuel + 1, c :: r =>
    if c == ('<') then
      match findTagEnd r with
      | some rest => stripTagsAux fuel rest
      | none => c :: stripTagsAux fuel r
    else c :: stripTagsAux fuel r

/-- Remove XML-ish tags, embedding `TAG_RE.sub("", txt)`. -/
def stripTags (s : List Char) : List Char := stripTagsAux (s.length + 1) s

/-- Collapse every maximal run of whitespace to a single space, embedding
`WS_RE.sub(" ", txt)` with `WS_RE = \s+`; the flag records whether the
previous character was part of a whitespace run. -/
def collapseWsAux : Bool → List Char → List Char
  | _, [] => []
  | prevSp, c :: r =>
    if pyIsSpace c then
      if prevSp then collapseWsAux true r else (' ') :: collapseWsAux true r
    else c :: collapseWsAux false r

/-- The `clean` helper of `etl/build.py`: strip tags, collapse whitespace
runs to single spaces, then strip the ends. -/
def clean (s : List Char) : List Char :=
  pyStripL (collapseWsAux false (stripTags s))

/-- Split a character list at every character satisfying `p`, keeping empty
pieces, as `str.split` / `re.split` on a single-character class does. -/
def splitOnPred (p : Char → Bool) : List Char → List (List Char)
  | [] => [[]]
  | c :: r =>
    if p c then [] :: splitOnPred p r
    else
      match splitOnPred p r with
      | h :: t => (c :: h) :: t
      | [] => [[c]]

/-- Case-insensitively consume `alt` from the front of `s`, returning the
remainder on success. -/
def ciDrop : List Char → List Char → Option (List Char)
  | [], s => some s
  | _ :: _, [] => none
  | a :: as, b :: bs => if lowerC a == lowerC b then ciDrop as bs else none

/-- Try to match one header alternative at the current position: the
alternative case-insensitively, immediately followed by a delimiter.
Returns the remainder after the delimiter on success. -/
def altMatchAt (alt : List Char) (s : List Char) : Option (List Char) :=
  match ciDrop alt s with
  | some (d :: rest) => if isDelim d then some rest else none
  | _ => none

/-- Try the alternatives of one header pattern in their written order at
the current position, as Python's regex alternation does. -/
def altsMatchAt (alts : List (List Char)) (s : List Char) : Option (List Char) :=
  alts.findSome? (fun alt => altMatchAt alt s)

/-- Scan for a match of `\b(alt1|alt2|...)[:\-–]` anywhere in the text,
embedding `pattern.search`; `prevW` records whether the previous character
was a word character (for the `\b` boundary — every alternative begins with
a word character, so the boundary holds exactly when `prevW` is false). -/
def patSearchAux (alts : List (List Char)) : Bool → List Char → Bool
  | _, [] => false
  | prevW, c :: r =>
    (!prevW && (altsMatchAt alts (c :: r)).isSome) || patSearchAux alts (isWordChar c) r

/-- Embedding of `SOAP_RE[section].search(para)` as a Boolean. -/
def patSearch (alts : List (List Char)) (s : List Char) : Bool :=
  patSearchAux alts false s

/-- Fueled scanner removing every non-overlapping match of a header pattern
left to right, embedding `re.sub(pattern, "", para)`.  After a match the
scan resumes after the delimiter, whose characters are never word
characters, so the boundary flag restarts false. -/
def subAllAux (alts : List (List Char)) : Nat → Bool → List Char → List Char
  | 0, _, s => s
  | _ + 1, _, [] => []
  | fuel + 1, prevW, c :: r =>
    if !prevW then
      match altsMatchAt alts (c :: r) with
      | some rest => subAllAux alts fuel false rest
      | none => c :: subAllAux alts fuel (isWordChar c) r
    else c :: subAllAux alts fuel (isWordChar c) r

/-- Remove every match of a header pattern, embedding `re.sub(pattern, "", para)`. -/
def subAll (alts : List (List Char)) (s : List Char) : List Char :=
  subAllAux alts (s.length + 1) false s

/-- Fueled scanner for `str.replace(old, new)`: replace non-overlapping
occurrences left to right, never rescanning the inserted text. -/
def replaceAllAux (old new : List Char) : Nat → List Char → List Char
  | 0, s => s
  | _ + 1, [] => []
  | fuel + 1, c :: r =>
    if startsWithL old (c :: r) then
      new ++ replaceAllAux old new fuel (List.drop (old.length - 1) r)
    else c :: replaceAllAux old new fuel r

/-- Embedding of Python's `str.replace(old, new)` for non-empty `old`. -/
def replaceAll (old new s : List Char) : List Char :=
  replaceAllAux old new (s.length + 1) s

/-- The four SOAP sections, the keys of the `sections` dictionary in
`split_soap`. -/
inductive Sec where
  | subjective
  | objective
  | assessment
  | plan
deriving DecidableEq, Repr

/-- The per-section accumulated content lists of `split_soap`. -/
structure Sections where
  subjective : List (List Char)
  objective : List (List Char)
  assessment : List (List Char)
  plan : List (List Char)
deriving DecidableEq, Repr

/-- The empty accumulator `split_soap` starts from. -/
def emptySections : Sections := ⟨[], [], [], []⟩

/-- Read one section's accumulated content. -/
def secGet (s : Sections) : Sec → List (List Char)
  | .subjective => s.subjective
  | .objective => s.objective
  | .assessment => s.assessment
  | .plan => s.plan

/-- Append one piece of content to a section, embedding
`sections[k].append(v)`. -/
def appendS (s : Sections) (k : Sec) (v : List Char) : Sections :=
  match k with
  | .subjective => { s with subjective := s.subjective ++ [v] }
  | .objective => { s with objective := s.objective ++ [v] }
  | .assessment => { s with assessment := s.assessment ++ [v] }
  | .plan => { s with plan := s.plan ++ [v] }

/-- The loop state of `split_soap`: the accumulated sections and the sticky
`current_section`. -/
structure SState where
  secs : Sections
  current : Sec
deriving DecidableEq, Repr

/-- Alternatives of `SOAP_HDR["subjective"]` in their written order. -/
def subjHdrs : List String :=
  ["S", "Subj", "Subjective", "PC", "HPC", "Hx", "H/O", "History",
   "Chief Complaint", "CC", "PMH", "DH", "SH", "ICE", "FH"]

/-- Alternatives of `SOAP_HDR["objective"]` in their written order
(`O\\E` in the raw pattern denotes the literal text `O\E`). -/
def objHdrs : List String :=
  ["O", "Obj", "Objective", "O/E", "O\\E", "Ex", "Exam", "Examination",
   "Vitals", "VS", "Physical Exam", "PE", "Systemically", "No ", "Feels ",
   "feels "]

/-- Alternatives of `SOAP_HDR["assessment"]` in their written order. -/
def assHdrs : List String :=
  ["A", "Ass", "Assessment", "Imp", "Impression", "Dx", "Diagnosis",
   "Working Dx", "Differential", "DDx"]

/-- Alternatives of `SOAP_HDR["plan"]` in their written order. -/
def planHdrs : List String :=
  ["P", "Pln", "Plan", "Follow-up", "FU", "Review", "Discussed",
   "Conservative", "Management", "Mx", "Treatment", "Rx"]

/-- The header alternatives of one section, as character lists. -/
def altsOf : Sec → List (List Char)
  | .subjective => subjHdrs.map (fun a => a.data)
  | .objective => objHdrs.map (fun a => a.data)
  | .assessment => assHdrs.map (fun a => a.data)
  | .plan => planHdrs.map (fun a => a.data)

/-- Iteration order of `SOAP_RE.items()` (dict insertion order). -/
def sectionOrder : List Sec := [.subjective, .objective, .assessment, .plan]

/-- The first section (in dict order) whose header pattern matches
somewhere in the paragraph, as the header loop of `split_soap` computes. -/
def firstHeader (para : List Char) : Option Sec :=
  sectionOrder.find? (fun k => patSearch (altsOf k) para)

/-- History-block markers checked case-sensitively (`split_soap` line 304). -/
def pmhMarkers : List String := ["PMH:", "DHx:", "SH:", "ICE:", "FH:", "NKDA"]

/-- Diagnostic-uncertainty markers checked against the lower-cased
paragraph (`split_soap` line 310). -/
def uncertMarkers : List String :=
  ["need to exclude", "rule out", "? ", "query", "possible"]

/-- Examination markers checked case-sensitively (`split_soap` line 360). -/
def examMarkers : List String :=
  ["O/E:", "On examination", "Ex:", "Exam:", "Examination:"]

/-- System-review markers checked case-sensitively (`split_soap` line 366). -/
def sysRevMarkers : List String :=
  ["RS:", "GI:", "Neuro:", "LS:", "SE:", "CVS:", "MSK:"]

/-- Sentence-level objective markers of the first-two-paragraphs special
case (`split_soap` lines 332-340). -/
def sentObjMarkers : List String :=
  ["systemically", "no fevers", "no vomiting", "no sob",
   "on examination", "o/e:", "ex:", "exam:",
   "rs:", "gi:", "neuro:", "ls:", "se:", "cvs:", "msk:",
   "no chest pain", "no headache", "no visual", "no nausea",
   "no bowel", "no urinary", "no rash", "looks well",
   "appears well", "not in pain", "comfortable",
   "erythema", "swelling", "tenderness"]

/-- Sentence-level measurement markers (`split_soap` lines 343-346). -/
def sentMeasMarkers : List String :=
  ["temp", "pulse", "bp", "sats", "weight", "height",
   "bmi", "cm", "mm", "kg", "°"]

/-- Sentence-level assessment markers (`split_soap` lines 349-352). -/
def sentAssMarkers : List String :=
  ["need to exclude", "rule out", "? ", "query",
   "possible", "probable", "suspected", "likely"]

/-- Case-sensitive membership of any marker in the text, embedding
`any(x in para for x in markers)`. -/
def anyLit (ms : List String) (s : List Char) : Bool :=
  ms.any (fun m => containsSub m.data s)

/-- The history-block marker check of `split_soap`. -/
def hasPMH (para : List Char) : Bool := anyLit pmhMarkers para

/-- The diagnostic-uncertainty marker check of `split_soap` (markers are
lower-case literals tested against the lower-cased paragraph). -/
def hasUncert (para : List Char) : Bool := anyLit uncertMarkers (lowerL para)

/-- The examination marker check of `split_soap`. -/
def hasExam (para : List Char) : Bool := anyLit examMarkers para

/-- The system-review marker check of `split_soap`. -/
def hasSysRev (para : List Char) : Bool := anyLit sysRevMarkers para

/-- ASCII digits, the regex class `\d`. -/
def isDigitC (c : Char) : Bool := c.isDigit

/-- Embedding of `re.match(r'^\d+\.?\s', para)`: one or more digits at the
start, an optional dot, then a whitespace character. -/
def numberedMatch (para : List Char) : Bool :=
  match para with
  | [] => false
  | c :: _ =>
    isDigitC c &&
      (match para.dropWhile isDigitC with
       | ('.') :: rest =>
         (match rest with
          | d :: _ => pyIsSpace d
          | [] => false)
       | d :: _ => pyIsSpace d
       | [] => false)

/-- Embedding of `re.sub(r'^\d+\.?\s*', '', para)`: drop leading digits, an
optional dot, and any following whitespace. -/
def stripNumbering (para : List Char) : List Char :=
  let r := para.dropWhile isDigitC
  let r2 := match r with
    | ('.') :: t => t
    | _ => r
  r2.dropWhile pyIsSpace

/-- Sentence terminators of `re.split(r'[.!?]+', para)`. -/
def isSentTerm (c : Char) : Bool := c == ('.') || c == ('!') || c == ('?')

/-- Embedding of `[s.strip() for s in re.split(r'[.!?]+', para) if s.strip()]`
(splitting on each terminator and dropping blank pieces equals splitting on
terminator runs and dropping blank pieces). -/
def sentencesOf (para : List Char) : List (List Char) :=
  ((splitOnPred isSentTerm para).map pyStripL).filter (fun s => !s.isEmpty)

/-- The sentence-level classification loop applied to the first two
paragraphs of a note (`split_soap` lines 323-357); `current_section` is not
touched by this branch. -/
def stepSentences (secs : Sections) (para : List Char) : Sections :=
  (sentencesOf para).foldl
    (fun acc s =>
      let sl := lowerL s
      if anyLit sentObjMarkers sl then appendS acc .objective s
      else if anyLit sentMeasMarkers sl then appendS acc .objective s
      else if anyLit sentAssMarkers sl then appendS acc .assessment s
      else appendS acc .subjective s)
    secs

/-- One iteration of the paragraph loop of `split_soap`, in the exact
branch order of the source: explicit header, history-block markers,
diagnostic uncertainty, numbered list, first-two-paragraphs sentence
handling, examination markers, system-review markers, sticky default. -/
def stepPara (i : Nat) (st : SState) (para : List Char) : SState :=
  if para.isEmpty then st
  else
    match firstHeader para with
    | some sec =>
      if sec = Sec.assessment ∧ containsSub [('?')] para = true then
        ⟨appendS st.secs sec para, sec⟩
      else
        if (pyStripL (subAll (altsOf sec) para)).isEmpty then ⟨st.secs, sec⟩
        else ⟨appendS st.secs sec (pyStripL (subAll (altsOf sec) para)), sec⟩
    | none =>
      if hasPMH para then ⟨appendS st.secs .subjective para, .subjective⟩
      else if hasUncert para then ⟨appendS st.secs .assessment para, .assessment⟩
      else if numberedMatch para then
        ⟨appendS st.secs .plan (stripNumbering para), .plan⟩
      else if i < 2 then ⟨stepSentences st.secs para, st.current⟩
      else if hasExam para then ⟨appendS st.secs .objective para, .objective⟩
      else if hasSysRev para then ⟨appendS st.secs .objective para, .objective⟩
      else ⟨appendS st.secs st.current para, st.current⟩

/-- Build the paragraph list from the stripped lines: blank lines separate
paragraphs, non-blank stripped lines are joined with a newline
(`split_soap` lines 256-270).  The accumulator holds the current
paragraph's lines in reverse. -/
def paragraphsAux : List (List Char) → List (List Char) → List (List Char)
  | cur, [] =>
    if cur.isEmpty then [] else [List.intercalate [('\n')] cur.reverse]
  | cur, l :: ls =>
    if l.isEmpty then
      if cur.isEmpty then paragraphsAux [] ls
      else List.intercalate [('\n')] cur.reverse :: paragraphsAux [] ls
    else paragraphsAux (l :: cur) ls

/-- Split a note into paragraphs on blank lines, stripping each line. -/
def paragraphsOf (note : List Char) : List (List Char) :=
  paragraphsAux [] ((splitOnPred (fun c => c == ('\n')) note).map pyStripL)

/-- The initial loop state: empty sections, `current_section = "subjective"`. -/
def initState : SState := ⟨emptySections, .subjective⟩

/-- Run the paragraph loop over all paragraphs with their indices. -/
def runParas (paras : List (List Char)) : SState :=
  paras.enum.foldl (fun st ip => stepPara ip.1 st ip.2) initState

/-- The literal substitution table applied to each joined section in the
order written in `split_soap` lines 379-410. -/
def replacementTable : List (String × String) :=
  [("PMH:", "Past Medical History:"),
   ("DHx:", "Drug History:"),
   ("SH:", "Social History:"),
   ("ICE:", "Ideas/Concerns/Expectations:"),
   ("FH:", "Family History:"),
   ("NKDA", "No Known Drug Allergies"),
   ("Systemically well", "Systemic examination:"),
   ("Systemically", "Systemic examination:"),
   ("Conservative mx", "Conservative management"),
   ("INB", "if not better"),
   ("sx", "symptoms"),
   ("Rx", "treatment"),
   ("abdo", "abdominal"),
   ("FU", "follow up"),
   ("FU:", "follow up:"),
   ("FU ", "follow up "),
   ("O/E:", "On examination:"),
   ("Ex:", "Examination:"),
   ("Exam:", "Examination:"),
   ("RS:", "Respiratory System:"),
   ("GI:", "Gastrointestinal System:"),
   ("Neuro:", "Neurological System:"),
   ("LS:", "Locomotor System:"),
   ("SE:", "Systemic Examination:"),
   ("CVS:", "Cardiovascular System:"),
   ("MSK:", "Musculoskeletal System:"),
   ("Hx:", "History:"),
   ("H/O:", "History of:"),
   ("Imp:", "Impression:"),
   ("Pln:", "Plan:"),
   ("DDx:", "Differential Diagnosis:"),
   ("Dx:", "Diagnosis:")]

/-- Apply the substitution table in order. -/
def applyReplacements (s : List Char) : List Char :=
  replacementTable.foldl (fun acc p => replaceAll p.1.data p.2.data acc) s

/-- Assemble one section: space-join the accumulated pieces, apply the
substitution table, then `clean` (`split_soap` lines 374-411). -/
def assembleSec (pieces : List (List Char)) : List Char :=
  clean (applyReplacements (List.intercalate [(' ')] pieces))

/-- The four output keys in dict insertion order. -/
def secKeysList : List String := ["subjective", "objective", "assessment", "plan"]

/-- The sentinel placeholder strings of `etl/build.py` (`PLACEHOLDER`). -/
def PLACEHOLDER : String → String
  | "subjective" => "No subjective information available."
  | "objective" => "No objective information available."
  | "assessment" => "No assessment information available."
  | "plan" => "No plan information available."
  | _ => ""

/-- The `out` dictionary after the assembly loop, as an association list in
insertion order. -/
def assembleOut (secs : Sections) : List (String × List Char) :=
  [("subjective", assembleSec secs.subjective),
   ("objective", assembleSec secs.objective),
   ("assessment", assembleSec secs.assessment),
   ("plan", assembleSec secs.plan)]

/-- Prepend the presenting complaint to the subjective value when a
non-empty complaint is supplied (`split_soap` lines 413-417; Python's
`if presenting:` treats the empty string like `None`). -/
def applyPresenting (presenting : Option String) (out : List (String × List Char)) :
    List (String × List Char) :=
  match presenting with
  | none => out
  | some p =>
    if p.data.isEmpty then out
    else
      out.map (fun kv =>
        if kv.1 = "subjective" then
          (kv.1, pyStripL ((("Presenting complaint: ").data) ++ p.data ++
            ((". ").data) ++ kv.2))
        else kv)

/-- The `out` dictionary just before the placeholder fill. -/
def splitSoapPre (note : String) (presenting : Option String) :
    List (String × List Char) :=
  applyPresenting presenting (assembleOut (runParas (paragraphsOf note.data)).secs)

/-- The placeholder fill `out[k] = out.get(k) or PLACEHOLDER[k]` over the
four keys (Python's `or` replaces exactly the empty string), converting the
values to `String`. -/
def fillPlaceholders (out : List (String × List Char)) : List (String × String) :=
  out.map (fun kv => (kv.1, if kv.2.isEmpty then PLACEHOLDER kv.1 else String.mk kv.2))

/-- The full `split_soap` of `etl/build.py`, returning the output record as
an association list in key insertion order. -/
def split_soap (note : String) (presenting : Option String) : List (String × String) :=
  fillPlaceholders (splitSoapPre note presenting)

/-- Look a key up in the output record. -/
def getSection (r : List (String × String)) (k : String) : Option String :=
  r.lookup k

/-- The `OBJECTIVE_PATTERNS` table of `etl/build.py` (lines 87-123),
verbatim and in order, duplicates included. -/
def OBJECTIVE_PATTERNS : List String :=
  ["sore throat", "runny nose", "nasal congestion", "cough", "fever",
   "sweats", "appetite", "rash", "pain", "ache", "SOB", "breathing",
   "chest", "temp", "temperature", "pulse", "BP", "heart rate",
   "oxygen", "sats", "saturation", "burning", "constant", "gradual",
   "progressive", "headache", "visual", "palpitations", "nausea",
   "vomiting", "bowel", "urinary", "dysuria", "haematuria",
   "tender", "swollen", "inflamed", "red", "warm", "cool", "pale",
   "cyanotic", "jaundiced", "oedema", "edema", "mass", "lump",
   "lesion", "wound", "scar", "rash", "bruise", "swelling",
   "weight", "height", "BMI", "circumference", "range of motion",
   "strength", "reflexes", "sensation", "mobility", "gait",
   "breath sounds", "heart sounds", "bowel sounds", "pulses",
   "abdomen", "chest", "heart", "lungs", "throat", "ears", "eyes",
   "nose", "mouth", "neck", "back", "extremities", "skin",
   "bilateral", "unilateral", "mild", "moderate", "severe",
   "decreased", "increased", "normal", "abnormal", "positive",
   "negative", "present", "absent",
   "periumbilical", "severity", "difficulty", "PV bleeding",
   "RS:", "GI:", "Neuro:", "LS:", "SE:", "CVS:", "MSK:",
   "no lip swelling", "speaking normally", "no airways compromise",
   "no rash seen", "no joint swelling", "no neck stiffness",
   "looks well", "appears well", "not in pain", "comfortable",
   "alert", "oriented", "distressed", "uncomfortable",
   "erythema", "swelling", "tenderness", "crepitus", "effusion",
   "discharge", "exudate", "lesion", "nodule", "mass"]

/-- The `ASSESSMENT_PATTERNS` table of `etl/build.py` (lines 126-152),
verbatim and in order, duplicates included. -/
def ASSESSMENT_PATTERNS : List String :=
  ["improving", "settling", "worsening", "stable", "resolved",
   "likely", "possibly", "probable", "suspected", "consistent with",
   "differential", "diagnosis", "working diagnosis", "need to exclude",
   "rule out", "?", "query", "impression", "imp", "assessment",
   "appears to be", "seems to be", "looks like", "suggestive of",
   "indicative of", "compatible with", "secondary to", "due to",
   "caused by", "resulting from", "concerning for", "worried about",
   "suspicious for", "high probability of", "low probability of",
   "localized", "inflammatory", "reaction", "evidence of",
   "acute", "chronic", "exclude", "pathology", "underlying",
   "differential diagnosis", "working diagnosis", "impression",
   "assessment", "diagnosis", "likely", "possibly", "probably",
   "suspected", "consistent with", "compatible with", "suggestive of",
   "indicative of", "secondary to", "due to", "caused by",
   "resulting from", "concerning for", "worried about",
   "suspicious for", "high probability of", "low probability of",
   "possible", "probable", "suspected", "presumed", "provisional",
   "working", "differential", "confirmed", "established",
   "need to exclude", "rule out", "? ", "query", "versus",
   "differential includes", "to consider", "impression of"]

/-- The `PLAN_PATTERNS` table of `etl/build.py` (lines 155-180), verbatim
and in order, duplicates included. -/
def PLAN_PATTERNS : List String :=
  ["plan:", "follow up", "review in", "discussed", "conservative",
   "prescribe", "prescription", "medication", "advice", "advise",
   "recommend", "recommendation", "refer", "referral", "monitor",
   "monitoring", "safety net", "red flags", "return if", "return to",
   "follow-up", "follow up", "next steps", "action plan", "management",
   "treatment", "therapy", "investigation", "test", "scan", "imaging",
   "bloods", "blood test", "urine", "stool", "sample", "specimen",
   "warned re", "red flags", "urgent medical review", "allergy testing",
   "ring back", "reassurance", "OTC", "antihistamines", "f2f appointment",
   "blood tests", "crp", "esr", "thick and thin blood films", "routine",
   "a/e", "second GP\x27s assessment", "screening bloods", "Lyme serology",
   "GP", "regular paracetamol", "naproxen", "prescribe", "contact us",
   "straightaway", "severe", "unrelenting",
   "advised to", "instructed to", "recommended to", "to continue",
   "to start", "to stop", "to avoid", "to use", "to take",
   "review in", "return in", "follow up in", "check in",
   "appointment in", "see in", "reassess in",
   "if symptoms worsen", "if no improvement", "warning signs",
   "red flags", "when to seek help", "emergency signs"]

/-- Case-insensitive keyword-table hit, the check
`any(pattern.lower() in para_lower for pattern in table)` that
`classify_section` performs on the tables. -/
def kwHit (table : List String) (para : List Char) : Bool :=
  table.any (fun kw => containsSub (lowerL kw.data) (lowerL para))

/-- Plan-table hit for a paragraph. -/
def planKw (para : List Char) : Bool := kwHit PLAN_PATTERNS para

/-- Assessment-table hit for a paragraph. -/
def assKw (para : List Char) : Bool := kwHit ASSESSMENT_PATTERNS para

/-- Objective-table hit for a paragraph. -/
def objKw (para : List Char) : Bool := kwHit OBJECTIVE_PATTERNS para

/-- One corpus record of `etl/filter_complete.py`: the transcript and the
`expected` JSON object, modelled as an optional association list so that an
absent `expected` key and absent section keys are representable. -/
structure DatasetEntry where
  input : String
  expected : Option (List (String × String))
deriving DecidableEq, Repr

/-- The `placeholders` dictionary of `etl/filter_complete.py` (its literals
coincide with `PLACEHOLDER` of `etl/build.py`). -/
def filterPlaceholders : String → String
  | "subjective" => "No subjective information available."
  | "objective" => "No objective information available."
  | "assessment" => "No assessment information available."
  | "plan" => "No plan information available."
  | _ => ""

/-- Embedding of `record.get('expected', {}).get(k)`: an absent `expected`
object or an absent key yields `none`. -/
def expGet (e : DatasetEntry) (k : String) : Option String :=
  (e.expected.getD []).lookup k

/-- The keep condition of `etl/filter_complete.py`:
`all(expected.get(k) != placeholders[k] for k in placeholders)`. -/
def keepEntry (e : DatasetEntry) : Bool :=
  secKeysList.all (fun k => !(expGet e k == some (filterPlaceholders k)))

/-- The output loop of `etl/filter_complete.py`: emit kept records in input
order. -/
def filterComplete : List DatasetEntry → List DatasetEntry
  | [] => []
  | e :: rest => if keepEntry e then e :: filterComplete rest else filterComplete rest

/-- One interval of a TextGrid speaker tier: a start time and a text mark. -/
structure GridInterval where
  minTime : Rat
  mark : String
deriving DecidableEq, Repr

/-- A parsed TextGrid document as `parse_grid` consumes it: the "Speaker"
tier when present (`tg.getFirst("Speaker")`). -/
structure TextGridDoc where
  speakerTier : Option (List GridInterval)
deriving DecidableEq, Repr

/-- The interval-to-utterance comprehension of `parse_grid`: drop intervals
with blank marks, tag each kept mark with the speaker label after `clean`. -/
def tagUtterances (speaker : String) (ivs : List GridInterval) : List (Rat × String) :=
  (ivs.filter (fun iv => !(pyStripL iv.mark.data).isEmpty)).map
    (fun iv => (iv.minTime, speaker ++ (": ") ++ String.mk (clean iv.mark.data)))

/-- The `parse_grid` function of `etl/build.py`.  The outcome of
`textgrid.TextGrid.fromFile` is the input: a parse failure (any exception,
which the function catches) or a document whose "Speaker" tier may be
absent.  Both failure shapes return the empty list. -/
def parse_grid (parsed : Except String TextGridDoc) (speaker : String) :
    List (Rat × String) :=
  match parsed with
  | .error _ => []
  | .ok tg =>
    match tg.speakerTier with
    | none => []
    | some ivs => tagUtterances speaker ivs

/-- Ordering of utterances by start time, the `key=lambda x: x[0]` of the
merge in `main`. -/
def utterLE (a b : Rat × String) : Prop := a.1 ≤ b.1

instance : DecidableRel utterLE := fun a b => inferInstanceAs (Decidable (a.1 ≤ b.1))

instance : IsTotal (Rat × String) utterLE := ⟨fun a b => le_total a.1 b.1⟩

instance : IsTrans (Rat × String) utterLE := ⟨fun _ _ _ h1 h2 => le_trans h1 h2⟩

/-- Stable sort by start time, embedding Python's stable `sorted` with the
timestamp key. -/
def sortUtts (l : List (Rat × String)) : List (Rat × String) :=
  List.insertionSort utterLE l

/-- The transcript merge of `main` (line 460): sort the concatenated
per-speaker utterance lists by start time, join the texts with newlines,
strip the ends. -/
def mergeTranscript (doc pat : List (Rat × String)) : String :=
  String.mk (pyStripL (List.intercalate [('\n')]
    ((sortUtts (doc ++ pat)).map (fun u => u.2.data))))

/-- The scenario note of the specification's classification example. -/
def c3note : String :=
  "PMH: hypertension\n\nO/E: BP 130/80\n\nImp: likely viral\n\nPlan: rest, fluids, review in 1 week"

/-- A note whose third paragraph consists of a plan-table keyword only. -/
def c4note : String := "went away\n\nfoo bar\n\nmonitoring"

/-- An entry whose expected object has one placeholder field and lacks the
other three section keys. -/
def c10entryA : DatasetEntry :=
  ⟨("t"), some [(("assessment"), ("No assessment information available."))]⟩

/-- An entry with no expected object at all. -/
def c10entryB : DatasetEntry := ⟨("u"), none⟩

/-! ### Helper lemmas -/

theorem filterComplete_eq_filter (l : List DatasetEntry) :
    filterComplete l = l.filter keepEntry := by
  induction l with
  | nil => rfl
  | cons e rest ih =>
    simp only [filterComplete, List.filter_cons, ih]

theorem keepEntry_of_expected_none (e : DatasetEntry) (h : e.expected = none) :
    keepEntry e = true := by
  simp [keepEntry, expGet, h, secKeysList]

theorem firstHeader_nil : firstHeader [] = none := rfl

theorem secGet_appendS_of_ne (s : Sections) (k t : Sec) (v : List Char)
    (h : t ≠ k) : secGet (appendS s k v) t = secGet s t := by
  cases k <;> cases t <;> first | rfl | exact absurd rfl h

theorem stepPara_of_header (i : Nat) (st : SState) (para : List Char) (s : Sec)
    (hh : firstHeader para = some s) :
    stepPara i st para =
      if s = Sec.assessment ∧ containsSub [('?')] para = true then
        ⟨appendS st.secs s para, s⟩
      else
        if (pyStripL (subAll (altsOf s) para)).isEmpty then ⟨st.secs, s⟩
        else ⟨appendS st.secs s (pyStripL (subAll (altsOf s) para)), s⟩ := by
  cases para with
  | nil => rw [firstHeader_nil] at hh; exact Option.noConfusion hh
  | cons c r => simp [stepPara, hh]

theorem mapFst_fillPlaceholders (out : List (String × List Char)) :
    (fillPlaceholders out).map Prod.fst = out.map Prod.fst := by
  simp only [fillPlaceholders, List.map_map]
  rfl

theorem mapFst_splitSoapPre (note : String) (presenting : Option String) :
    (splitSoapPre note presenting).map Prod.fst = secKeysList := by
  unfold splitSoapPre applyPresenting assembleOut
  cases presenting with
  | none => rfl
  | some p =>
    dsimp only
    split
    · rfl
    · rfl

/-! ### Claim theorems -/

/-- C1: for every note string and optional presenting-complaint string,
`split_soap` returns a record with exactly the four keys subjective,
objective, assessment, plan (in that order), each mapped to a non-empty
string, and any key whose value is still empty just before the placeholder
fill receives the exact sentinel `PLACEHOLDER` string for that key. -/
theorem claim1_total_coverage (note : String) (presenting : Option String) :
    (split_soap note presenting).map Prod.fst = secKeysList ∧
    (∀ kv ∈ split_soap note presenting, kv.2 ≠ ("")) ∧
    (∀ kv ∈ splitSoapPre note presenting, kv.2 = [] →
      (kv.1, PLACEHOLDER kv.1) ∈ split_soap note presenting) := by
  refine ⟨?_, ?_, ?_⟩
  · unfold split_soap
    rw [mapFst_fillPlaceholders, mapFst_splitSoapPre]
  · intro kv hkv
    unfold split_soap fillPlaceholders at hkv
    obtain ⟨kv', hmem, rfl⟩ := List.mem_map.mp hkv
    have hk : kv'.1 ∈ (splitSoapPre note presenting).map Prod.fst :=
      List.mem_map_of_mem _ hmem
    rw [mapFst_splitSoapPre] at hk
    have hk' : kv'.1 = ("subjective") ∨ kv'.1 = ("objective") ∨
        kv'.1 = ("assessment") ∨ kv'.1 = ("plan") := by
      simpa [secKeysList] using hk
    dsimp only
    split
    · rcases hk' with h | h | h | h <;> rw [h] <;> decide
    · rename_i hni
      intro hc
      apply hni
      have hd : kv'.2 = [] := congrArg String.data hc
      simp [hd]
  · intro kv hkv hempty
    unfold split_soap fillPlaceholders
    refine List.mem_map.mpr ⟨kv, hkv, ?_⟩
    simp [hempty]

/-- Witness for C1 at the empty note: the subjective key of the empty
note's record carries the exact sentinel. -/
theorem claim1_witness :
    ((("subjective"), PLACEHOLDER ("subjective"))) ∈ split_soap ("") none :=
  (claim1_total_coverage ("") none).2.2 ((("subjective"), ([] : List Char)))
    (by decide) rfl

/-- C2: the dataset filter's output is exactly the input filtered by the
no-placeholder-field condition: a subsequence of the input, containing an
entry exactly when it is an input entry none of whose four expected fields
equals its sentinel placeholder, entries unmodified and in input order. -/
theorem claim2_filter_correct (l : List DatasetEntry) :
    filterComplete l = l.filter keepEntry ∧
    List.Sublist (filterComplete l) l ∧
    ∀ e : DatasetEntry, e ∈ filterComplete l ↔ e ∈ l ∧ keepEntry e = true := by
  refine ⟨filterComplete_eq_filter l, ?_, ?_⟩
  · rw [filterComplete_eq_filter]
    exact List.filter_sublist l
  · intro e
    rw [filterComplete_eq_filter, List.mem_filter]

/-- C9: the embedded `parse_grid` maps every parse failure and every
document lacking the "Speaker" tier to the empty utterance list; as a total
function it propagates no exception. -/
theorem claim9_parse_grid_degrades (err : String) (speaker : String)
    (tg : TextGridDoc) (hmiss : tg.speakerTier = none) :
    parse_grid (Except.error err) speaker = [] ∧
    parse_grid (Except.ok tg) speaker = [] := by
  refine ⟨rfl, ?_⟩
  simp [parse_grid, hmiss]

/-- Witness for C9: a concrete failing parse and a concrete tier-less
document both yield no utterances. -/
theorem claim9_witness :
    parse_grid (Except.error ("boom")) ("DOCTOR") = [] ∧
    parse_grid (Except.ok ⟨none⟩) ("DOCTOR") = [] :=
  claim9_parse_grid_degrades ("boom") ("DOCTOR") ⟨none⟩ rfl

set_option maxRecDepth 40000 in
/-- C3 fails on the code: in the specification's scenario note the headers
are removed by the header-match substitution, so the subjective value is
exactly "hypertension" and does not contain the expansion "Past Medical
History:", and the assessment value is exactly "likely viral" and does not
contain "Impression:". -/
theorem claim3_counterexample :
    getSection (split_soap c3note none) ("subjective") = some ("hypertension") ∧
    containsSub (("Past Medical History:").data) (("hypertension").data) = false ∧
    getSection (split_soap c3note none) ("assessment") = some ("likely viral") ∧
    containsSub (("Impression:").data) (("likely viral").data) = false := by
  decide

set_option maxRecDepth 40000 in
/-- C3 (amended): on the scenario note, `split_soap` classifies the four
paragraphs into the four sections with each matched header token and
delimiter stripped (not expanded), yielding subjective "hypertension",
objective "BP 130/80", assessment "likely viral" and plan "rest, fluids,
review in 1 week". -/
theorem claim3_amended_scenario :
    split_soap c3note none =
      [(("subjective"), ("hypertension")),
       (("objective"), ("BP 130/80")),
       (("assessment"), ("likely viral")),
       (("plan"), ("rest, fluids, review in 1 week"))] := by
  decide

set_option maxRecDepth 40000 in
/-- C4 fails on the code: "monitoring" is a plan-table phrase and matches
no header, yet as a third paragraph it is assigned to the sticky current
section (subjective) and the plan section stays at its placeholder — the
keyword tables are not consulted by the paragraph loop. -/
theorem claim4_counterexample :
    planKw (("monitoring").data) = true ∧
    firstHeader (("monitoring").data) = none ∧
    getSection (split_soap c4note none) ("plan") =
      some ("No plan information available.") ∧
    getSection (split_soap c4note none) ("subjective") =
      some ("went away foo bar monitoring") := by
  decide

/-- C4 (amended): `split_soap` never consults the keyword tables — a
paragraph at index at least 2 matching no header pattern and none of the
inline marker checks is appended to the sticky current section even when it
contains plan-, assessment- or objective-table phrases. -/
theorem claim4_amended_no_keyword_lookup (i : Nat) (st : SState) (para : List Char)
    (hi : 2 ≤ i)
    (hh : firstHeader para = none)
    (hp : hasPMH para = false)
    (hu : hasUncert para = false)
    (hn : numberedMatch para = false)
    (he : hasExam para = false)
    (hs : hasSysRev para = false)
    (hk : (planKw para || assKw para || objKw para) = true) :
    stepPara i st para = ⟨appendS st.secs st.current para, st.current⟩ := by
  have hne : para ≠ [] := by
    intro h
    subst h
    exact absurd hk (by decide)
  cases para with
  | nil => exact absurd rfl hne
  | cons c r =>
    have h2 : ¬ i < 2 := by omega
    simp [stepPara, hh, hp, hu, hn, he, hs, h2]

/-- Witness for the amended C4: the keyword-bearing paragraph "monitoring"
at index 2 is appended to the initial current section, subjective. -/
theorem claim4_witness :
    stepPara 2 initState (("monitoring").data) =
      ⟨appendS initState.secs Sec.subjective (("monitoring").data), Sec.subjective⟩ :=
  claim4_amended_no_keyword_lookup 2 initState _ (by decide) (by decide) (by decide)
    (by decide) (by decide) (by decide) (by decide) (by decide)

set_option maxRecDepth 40000 in
/-- C5 fails on the code: after "Plan: rest" sets the current section to
plan, the marker-free second paragraph "bla" is handled by the
first-two-paragraphs sentence branch and lands in subjective, not in the
immediately preceding classified section plan. -/
theorem claim5_counterexample :
    (stepPara 0 initState (("Plan: rest").data)).current = Sec.plan ∧
    firstHeader (("bla").data) = none ∧
    hasPMH (("bla").data) = false ∧
    hasUncert (("bla").data) = false ∧
    numberedMatch (("bla").data) = false ∧
    (planKw (("bla").data) || assKw (("bla").data) || objKw (("bla").data)) = false ∧
    (stepPara 1 (stepPara 0 initState (("Plan: rest").data)) (("bla").data)).secs.subjective =
      [("bla").data] ∧
    (stepPara 1 (stepPara 0 initState (("Plan: rest").data)) (("bla").data)).secs.plan =
      [("rest").data] := by
  decide

/-- C5 (amended): a paragraph at index at least 2 with no header match and
no marker match is appended to the sticky current section, which is
initialized to subjective at the start of every `split_soap` call; the
first two paragraphs instead undergo sentence-level classification. -/
theorem claim5_amended_sticky :
    (∀ (i : Nat) (st : SState) (para : List Char),
      2 ≤ i → para ≠ [] →
      firstHeader para = none → hasPMH para = false → hasUncert para = false →
      numberedMatch para = false → hasExam para = false → hasSysRev para = false →
      stepPara i st para = ⟨appendS st.secs st.current para, st.current⟩) ∧
    initState.current = Sec.subjective := by
  refine ⟨?_, rfl⟩
  intro i st para hi hne hh hp hu hn he hs
  cases para with
  | nil => exact absurd rfl hne
  | cons c r =>
    have h2 : ¬ i < 2 := by omega
    simp [stepPara, hh, hp, hu, hn, he, hs, h2]

/-- Witness for the amended C5: the unmarked paragraph "bla" at index 2 is
appended to the initial current section, subjective. -/
theorem claim5_witness :
    stepPara 2 initState (("bla").data) =
      ⟨appendS initState.secs Sec.subjective (("bla").data), Sec.subjective⟩ :=
  claim5_amended_sticky.1 2 initState _ (by decide) (by decide) (by decide)
    (by decide) (by decide) (by decide) (by decide) (by decide)

/-- C6: a paragraph matching an explicit header pattern (first-matching
section s in dict order) that also contains a plan- or assessment-table
phrase is classified by the header: the current section becomes s and no
other section receives content. -/
theorem claim6_header_over_keyword (i : Nat) (st : SState) (para : List Char)
    (s : Sec)
    (hh : firstHeader para = some s)
    (_hk : (planKw para || assKw para) = true) :
    (stepPara i st para).current = s ∧
    ∀ t : Sec, t ≠ s → secGet (stepPara i st para).secs t = secGet st.secs t := by
  rw [stepPara_of_header i st para s hh]
  constructor
  · split
    · rfl
    · split
      · rfl
      · rfl
  · intro t ht
    split
    · exact secGet_appendS_of_ne _ _ _ _ ht
    · split
      · rfl
      · exact secGet_appendS_of_ne _ _ _ _ ht

/-- Witness for C6: "Imp: follow up later" carries the plan-table phrase
"follow up" but is classified to assessment by its header, leaving the plan
section untouched. -/
theorem claim6_witness :
    (stepPara 0 initState (("Imp: follow up later").data)).current = Sec.assessment ∧
    secGet (stepPara 0 initState (("Imp: follow up later").data)).secs Sec.plan =
      secGet initState.secs Sec.plan :=
  ⟨(claim6_header_over_keyword 0 initState _ Sec.assessment (by decide) (by decide)).1,
   (claim6_header_over_keyword 0 initState _ Sec.assessment (by decide) (by decide)).2
     Sec.plan (by decide)⟩

/-- C7: a paragraph assigned to assessment via header that contains a
question mark is kept whole, header included; a header-matched paragraph
without that combination has every header match removed and only the
stripped remainder kept (and dropped when empty). -/
theorem claim7_question_keeps_header (i : Nat) (st : SState) (para : List Char)
    (s : Sec)
    (hh : firstHeader para = some s) :
    (s = Sec.assessment → containsSub [('?')] para = true →
      stepPara i st para = ⟨appendS st.secs s para, s⟩) ∧
    ((s = Sec.assessment → containsSub [('?')] para = false) →
      stepPara i st para =
        (if (pyStripL (subAll (altsOf s) para)).isEmpty then (⟨st.secs, s⟩ : SState)
         else ⟨appendS st.secs s (pyStripL (subAll (altsOf s) para)), s⟩)) := by
  rw [stepPara_of_header i st para s hh]
  constructor
  · intro h1 h2
    rw [if_pos ⟨h1, h2⟩]
  · intro h
    rw [if_neg]
    rintro ⟨ha, hq⟩
    rw [h ha] at hq
    exact Bool.false_ne_true hq

/-- Witness for C7: the assessment-headed paragraph "Imp: ?viral" contains
a question mark and is kept whole, header included. -/
theorem claim7_witness :
    stepPara 0 initState (("Imp: ?viral").data) =
      ⟨appendS initState.secs Sec.assessment (("Imp: ?viral").data), Sec.assessment⟩ :=
  (claim7_question_keeps_header 0 initState _ Sec.assessment (by decide)).1 rfl
    (by decide)

/-- C8: the merged transcript sorts the concatenated per-speaker utterance
lists by start time (a sorted permutation of the concatenation), blank
marks having been dropped by the extractor before sorting, and on the
concrete lists with timestamps 1 and 1/2 the newline-joined result is
"patient: hello\ndoctor: hi". -/
theorem claim8_chronological_merge :
    (∀ doc pat : List (Rat × String),
      List.Sorted utterLE (sortUtts (doc ++ pat)) ∧
      List.Perm (sortUtts (doc ++ pat)) (doc ++ pat)) ∧
    (∀ (speaker : String) (ivs : List GridInterval),
      tagUtterances speaker ivs =
        tagUtterances speaker
          (ivs.filter (fun iv => !(pyStripL iv.mark.data).isEmpty))) ∧
    mergeTranscript [((1 : Rat), ("doctor: hi"))] [((1 : Rat)/2, ("patient: hello"))] =
      ("patient: hello\ndoctor: hi") := by
  refine ⟨fun doc pat =>
    ⟨List.sorted_insertionSort utterLE _, List.perm_insertionSort utterLE _⟩, ?_, ?_⟩
  · intro speaker ivs
    simp [tagUtterances, List.filter_filter]
  · have h12 : (1 : Rat)/2 = mkRat 1 2 := by
      rw [Rat.mkRat_eq_divInt, Rat.divInt_eq_div]
      norm_num
    rw [h12]
    decide

/-- C10 fails on the code: an entry missing three of the four section keys
is nevertheless dropped when its one present field equals the placeholder,
so missing keys alone do not guarantee the entry is kept. -/
theorem claim10_counterexample :
    expGet c10entryA ("subjective") = none ∧
    expGet c10entryA ("objective") = none ∧
    expGet c10entryA ("plan") = none ∧
    filterComplete [c10entryA] = [] := by
  decide

/-- C10 (amended): absent keys read as `none`, which never equals a
placeholder, so absence never causes dropping: an entry with no expected
object at all is always kept, and a dropped entry must have some present
field exactly equal to its placeholder. -/
theorem claim10_amended_missing_keys :
    (∀ (l : List DatasetEntry) (e : DatasetEntry),
      e ∈ l → e.expected = none → e ∈ filterComplete l) ∧
    (∀ e : DatasetEntry, keepEntry e = false →
      ∃ k, k ∈ secKeysList ∧ expGet e k = some (filterPlaceholders k)) := by
  constructor
  · intro l e hm hn
    rw [filterComplete_eq_filter]
    exact List.mem_filter.mpr ⟨hm, keepEntry_of_expected_none e hn⟩
  · intro e h
    by_contra hno
    push_neg at hno
    have hkeep : keepEntry e = true := by
      simp only [keepEntry, List.all_eq_true]
      intro k hk
      rw [Bool.not_eq_true']
      exact beq_eq_false_iff_ne.mpr (hno k hk)
    rw [hkeep] at h
    exact Bool.noConfusion h

/-- Witness for the amended C10: the entry with no expected object is kept
by the filter. -/
theorem claim10_witness : c10entryB ∈ filterComplete [c10entryB] :=
  claim10_amended_missing_keys.1 [c10entryB] c10entryB (List.mem_singleton.mpr rfl) rfl

end SoapETL
